import Mathlib

set_option maxHeartbeats 1000000

/-!
Shallow embedding of the Multi-Agent-Interview-Coach orchestration engine.

Sources embedded:
* `src/interview_engine.py` — `InterviewEngine.__init__`, `step`,
  `_update_difficulty_by_streaks`, `_advance_topic`, `_topic_guard_ok`,
  `_generate_question`, `_push_user`, `_push_assistant`.
* `src/agents.py` — `_safe_json_load`, `HiringManagerAgent.build_feedback`,
  `TopicPlannerAgent.build_plan` (fallback logic), the pydantic data models.
* `src/logger.py` — `TurnLog`, `InterviewLogger.add_turn`.
* `src/prompts.py` — `build_interviewer_intro`.

External LLM calls (`OllamaClient.chat` and the JSON parsing / pydantic
validation of their raw output) are opaque capabilities; they are modelled as
oracle parameters (`StepOracles`, and the `loads` / `validate` parameters of
`build_feedback`). All engine control flow, state updates and string handling
are translated directly from the Python source.
-/

/-- The `Difficulty` literal type of `src/agents.py` (`"easy" | "medium" | "hard"`). -/
inductive Difficulty
  | easy
  | medium
  | hard
deriving DecidableEq, Repr

/-- The `answer_quality` literal type (`"good" | "partial" | "poor" | "unknown"`). -/
inductive Quality
  | good
  | partialAnswer
  | poor
  | unknown
deriving DecidableEq, Repr

/-- Pydantic `ObserverOutput` model (src/agents.py lines 34-48), with its defaults. -/
structure ObserverOutput where
  detected_offtopic : Bool := false
  detected_hallucination : Bool := false
  answer_quality : Quality := Quality.unknown
  score_0_100 : Nat := 50
  next_difficulty : Difficulty := Difficulty.easy
  next_topic : String := "general_basics"
  intent : String := "check_basics"
  should_move_on : Bool := true
  need_hint : Bool := false
  acknowledge : String := "Понял."
  notes : String := ""
deriving DecidableEq, Repr

/-- Pydantic `GeneratedQuestion` model (src/agents.py lines 51-54). -/
structure GeneratedQuestion where
  question_text : String
  hint : String := ""
  ideal_answer_short : String := ""
deriving DecidableEq, Repr

/-- The argument bundle of one `QuestionGeneratorAgent.generate` invocation
(src/agents.py lines 216-228), as assembled by the engine. -/
structure QGenCall where
  topic : String
  difficulty : Difficulty
  intent : String
  need_hint : Bool
  avoid_questions : List String
deriving DecidableEq, Repr

/-- Chat message role. -/
inductive Role
  | user
  | assistant
deriving DecidableEq, Repr

/-- One entry of `InterviewEngine.history` (a `{"role": ..., "content": ...}` dict). -/
structure Msg where
  role : Role
  content : String
deriving DecidableEq, Repr

/-- The `TurnLog` dataclass of src/logger.py. -/
structure TurnLog where
  turn_id : Nat
  topic : String
  difficulty : Difficulty
  score_0_100 : Nat
  ideal_answer_short : String
  agent_visible_message : String
  user_message : String
  internal_thoughts : String
deriving DecidableEq, Repr

/-- The mutable state owned by one `InterviewEngine` instance
(src/interview_engine.py lines 58-82), including the `InterviewLogger.turns`
list it owns. -/
structure EngineState where
  topic_plan : List String
  current_topic : String
  difficulty : Difficulty
  topic_index : Nat
  streak_good : Nat
  streak_poor : Nat
  last_topic : Option String
  last_intent : Option String
  asked_questions_text : List String
  asked_topics : List String
  history : List Msg
  turn_id : Nat
  turns : List TurnLog
  max_regen_attempts : Nat
deriving DecidableEq, Repr

/-- Oracle bundle for the external LLM capabilities used during one turn:
`observe` is the `ObserverOutput` returned by `ObserverAgent.analyze` in
`step`; `qgen` maps each `QuestionGeneratorAgent.generate` argument bundle to
the returned draft (already after the agent's own parse-fallback, which always
yields a `GeneratedQuestion`); `guardNotes topic question` is the `notes`
field of the observer output produced inside `_topic_guard_ok`; `render` is
the visible text returned by `InterviewerAgent.render_message`. -/
structure StepOracles where
  observe : ObserverOutput
  qgen : QGenCall → GeneratedQuestion
  guardNotes : String → String → String
  render : String

/-- Python `s.lower()`, restricted to the character ranges that can occur in
the mismatch markers checked by `_topic_guard_ok` (ASCII letters and basic
Cyrillic). -/
def pyLowerChar (c : Char) : Char :=
  if 'A' ≤ c ∧ c ≤ 'Z' then Char.ofNat (c.toNat + 32)
  else if 'А' ≤ c ∧ c ≤ 'Я' then Char.ofNat (c.toNat + 32)
  else if c = 'Ё' then 'ё'
  else c

/-- Boolean prefix test on character lists. -/
def startsWithB : List Char → List Char → Bool
  | [], _ => true
  | _ :: _, [] => false
  | a :: as, b :: bs => a == b && startsWithB as bs

/-- Substring containment, Python's `needle in hay`. -/
def containsSub (needle : List Char) : List Char → Bool
  | [] => startsWithB needle []
  | b :: bs => startsWithB needle (b :: bs) || containsSub needle bs

/-- The decision core of `InterviewEngine._topic_guard_ok` (lines 168-177):
given the notes of the observer's verification output, fail only when an
explicit mismatch marker occurs in the lowercased notes; otherwise (and on any
guard exception, which the oracle model cannot produce) report OK. -/
def topic_guard_ok (notes : String) : Bool :=
  let n := notes.toList.map pyLowerChar
  !(containsSub "mismatch".toList n ||
    containsSub "не соответствует".toList n ||
    containsSub "не по теме".toList n)

/-- Python `xs[-n:]`. -/
def pyLastN (n : Nat) (xs : List String) : List String :=
  xs.drop (xs.length - n)

/-- The `while attempts < self.max_regen_attempts and not self._topic_guard_ok(...)`
regeneration loop of `_generate_question` (lines 200-213), with the remaining
attempt budget as fuel. Returns the final draft together with the list of
`generate` argument bundles issued by the loop (the retries). -/
def regenLoop (o : StepOracles) (topic : String) (difficulty : Difficulty) (intent : String)
    (need_hint : Bool) (avoid : List String) :
    Nat → GeneratedQuestion → GeneratedQuestion × List QGenCall
  | 0, g => (g, [])
  | fuel + 1, g =>
    if topic_guard_ok (o.guardNotes topic g.question_text) then
      (g, [])
    else
      let c : QGenCall :=
        { topic := topic
          difficulty := difficulty
          intent := intent ++ "_REGEN_TOPIC_MISMATCH"
          need_hint := need_hint
          avoid_questions := avoid ++ [g.question_text] }
      let next := regenLoop o topic difficulty intent need_hint avoid fuel (o.qgen c)
      (next.1, c :: next.2)

/-- `InterviewEngine._generate_question` (lines 179-219). Returns the accepted
draft and the full list of `generate` argument bundles issued (initial call
first, then the guard retries). -/
def generate_question (o : StepOracles) (s : EngineState) (topic : String)
    (difficulty : Difficulty) (intent : String) (need_hint : Bool) :
    GeneratedQuestion × List QGenCall :=
  let avoid := pyLastN 8 s.asked_questions_text
  let c0 : QGenCall :=
    { topic := topic
      difficulty := difficulty
      intent := intent
      need_hint := need_hint
      avoid_questions := avoid }
  let g0 := o.qgen c0
  let r := regenLoop o topic difficulty intent need_hint avoid s.max_regen_attempts g0
  (r.1, c0 :: r.2)

/-- The streak update of `InterviewEngine.step`, part 2 (lines 242-248). -/
def updateStreaks (s : EngineState) (plan : ObserverOutput) : EngineState :=
  if plan.score_0_100 ≥ 75 then
    { s with streak_good := s.streak_good + 1, streak_poor := 0 }
  else if plan.score_0_100 ≤ 45 ∨ plan.answer_quality = Quality.poor ∨
      plan.answer_quality = Quality.unknown then
    { s with streak_poor := s.streak_poor + 1, streak_good := 0 }
  else
    s

/-- `InterviewEngine._update_difficulty_by_streaks` (lines 108-123): two
independent `if` statements, promotion first. -/
def update_difficulty_by_streaks (s : EngineState) : EngineState :=
  let s1 :=
    if s.streak_good ≥ 2 then
      let d :=
        match s.difficulty with
        | Difficulty.easy => Difficulty.medium
        | Difficulty.medium => Difficulty.hard
        | Difficulty.hard => Difficulty.hard
      { s with difficulty := d, streak_good := 0 }
    else s
  if s1.streak_poor ≥ 2 then
    let d :=
      match s1.difficulty with
      | Difficulty.hard => Difficulty.medium
      | Difficulty.medium => Difficulty.easy
      | Difficulty.easy => Difficulty.easy
    { s1 with difficulty := d, streak_poor := 0 }
  else s1

/-- `InterviewEngine._advance_topic` (lines 125-129): bump the cursor unless
already at the last position, then return the plan entry at the cursor. -/
def advance_topic (s : EngineState) : String × EngineState :=
  let s' :=
    if s.topic_index < s.topic_plan.length - 1 then
      { s with topic_index := s.topic_index + 1 }
    else s
  (s'.topic_plan.getD s'.topic_index "", s')

/-- Result of the per-turn topic decision (step part 3). -/
structure TopicDecision where
  planned_topic : String
  state : EngineState
  plan : ObserverOutput

/-- Step part 3 (lines 252-268): decide the planned topic for this turn; in the
stay branch apply the score ≤ 45 override (`self.difficulty = "easy"`,
`plan.need_hint = True`); in the move branch adopt an in-plan recommended
topic or fall back to `_advance_topic`, re-deriving `topic_index` with
`list.index`. -/
def decideTopic (s : EngineState) (plan : ObserverOutput) : TopicDecision :=
  if !plan.should_move_on then
    if plan.score_0_100 ≤ 45 then
      { planned_topic := s.current_topic
        state := { s with difficulty := Difficulty.easy }
        plan := { plan with need_hint := true } }
    else
      { planned_topic := s.current_topic, state := s, plan := plan }
  else if plan.next_topic ∈ s.topic_plan then
    { planned_topic := plan.next_topic
      state := { s with topic_index := s.topic_plan.indexOf plan.next_topic }
      plan := plan }
  else
    let a := advance_topic s
    { planned_topic := a.1
      state := { a.2 with topic_index := a.2.topic_plan.indexOf a.1 }
      plan := plan }

/-- Python `str(bool)`. -/
def pyBool (b : Bool) : String :=
  if b then "True" else "False"

/-- String form of a difficulty, as stored in the Python state. -/
def difficultyStr : Difficulty → String
  | Difficulty.easy => "easy"
  | Difficulty.medium => "medium"
  | Difficulty.hard => "hard"

/-- String form of an answer quality. -/
def qualityStr : Quality → String
  | Quality.good => "good"
  | Quality.partialAnswer => "partial"
  | Quality.poor => "poor"
  | Quality.unknown => "unknown"

/-- The `internal` diagnostic string of step part 5 (lines 282-287). -/
def internalLog (planned_topic : String) (plan : ObserverOutput) (difficulty : Difficulty) :
    String :=
  "[Observer] planned_topic=" ++ planned_topic ++ ", quality=" ++
    qualityStr plan.answer_quality ++ ", score=" ++ toString plan.score_0_100 ++
    ", offtopic=" ++ pyBool plan.detected_offtopic ++ ", hallucination=" ++
    pyBool plan.detected_hallucination ++ ", should_move_on=" ++
    pyBool plan.should_move_on ++ ", need_hint=" ++ pyBool plan.need_hint ++
    ", difficulty_now=" ++ difficultyStr difficulty ++ ". notes=" ++ plan.notes

/-- Result of one `InterviewEngine.step` call: the new engine state, the
returned visible message, the list of generator invocations made this turn,
and the (possibly hint-forced) observer plan used for generation/logging. -/
structure StepResult where
  state : EngineState
  visible : String
  genCalls : List QGenCall
  planOut : ObserverOutput

/-- Step parts 0-1 (lines 222-223): bump the turn counter and push the user
message onto the history. -/
def stepUserPushed (s : EngineState) (user_message : String) : EngineState :=
  { s with turn_id := s.turn_id + 1,
           history := s.history ++ [Msg.mk Role.user user_message] }

/-- Step part 2 (lines 242-250): streak update followed by the streak-based
difficulty transition. -/
def stepStreaksDone (o : StepOracles) (s : EngineState) (u : String) : EngineState :=
  update_difficulty_by_streaks (updateStreaks (stepUserPushed s u) o.observe)

/-- Step part 3 (lines 252-265): the topic decision for this turn. -/
def stepDecision (o : StepOracles) (s : EngineState) (u : String) : TopicDecision :=
  decideTopic (stepStreaksDone o s u) o.observe

/-- Step line 268: commit the planned topic. -/
def stepCommitted (o : StepOracles) (s : EngineState) (u : String) : EngineState :=
  { (stepDecision o s u).state with current_topic := (stepDecision o s u).planned_topic }

/-- Step part 4 (lines 271-276): generate the next question for the committed
topic. -/
def stepGen (o : StepOracles) (s : EngineState) (u : String) :
    GeneratedQuestion × List QGenCall :=
  generate_question o (stepCommitted o s u) (stepDecision o s u).planned_topic
    (stepCommitted o s u).difficulty (stepDecision o s u).plan.intent
    (stepDecision o s u).plan.need_hint

/-- `InterviewEngine.step` (lines 221-315), with the external calls supplied by
`o`, assembled from the named stages above (parts 5-8: internal log, visible
message, structured logging, state update). -/
def step (o : StepOracles) (s : EngineState) (user_message : String) : StepResult :=
  let sc := stepCommitted o s user_message
  let gq := stepGen o s user_message
  let s5 : EngineState :=
    { sc with asked_questions_text := sc.asked_questions_text ++ [gq.1.question_text],
              asked_topics := sc.asked_topics ++ [(stepDecision o s user_message).planned_topic] }
  let internal :=
    internalLog (stepDecision o s user_message).planned_topic
      (stepDecision o s user_message).plan s5.difficulty
  let visible := o.render
  let s6 : EngineState := { s5 with history := s5.history ++ [Msg.mk Role.assistant visible] }
  let tl : TurnLog :=
    { turn_id := s6.turn_id
      topic := (stepDecision o s user_message).planned_topic
      difficulty := s6.difficulty
      score_0_100 := (stepDecision o s user_message).plan.score_0_100
      ideal_answer_short := gq.1.ideal_answer_short
      agent_visible_message := visible
      user_message := user_message
      internal_thoughts := internal }
  let s7 : EngineState := { s6 with turns := s6.turns ++ [tl] }
  let s8 : EngineState :=
    { s7 with last_topic := some (stepDecision o s user_message).planned_topic,
              last_intent := some (stepDecision o s user_message).plan.intent }
  { state := s8, visible := visible, genCalls := gq.2,
    planOut := (stepDecision o s user_message).plan }

/-- The fixed 3-topic default plan (src/agents.py line 114/117 and
src/interview_engine.py line 75). -/
def default_topics : List String :=
  ["general_basics", "problem_solving", "tools_workflow"]

/-- `TopicPlannerAgent.build_plan` result topics given the outcome of parsing
and validating the raw model output: `none` means the parse/validation raised
(lines 116-117), `some ts` is the validated `topics` list, replaced by the
default when empty (lines 113-114). -/
def build_plan_topics (parsed : Option (List String)) : List String :=
  match parsed with
  | some ts => if ts.isEmpty then default_topics else ts
  | none => default_topics

/-- `build_interviewer_intro` of src/prompts.py. -/
def build_interviewer_intro (position grade experience : String) : String :=
  "Привет! Проведу короткое техинтервью на позицию " ++ position ++ " (" ++ grade ++ "). " ++
  "Вижу твой опыт: " ++ experience ++ ". " ++
  "Отвечай своими словами. Если что-то не знаешь — так и скажи. Начнём."

/-- Constructor arguments of `InterviewEngine.__init__`. -/
structure InitArgs where
  position : String
  target_grade : String
  experience : String
  participant_name : String
  lang : String := "ru"
  max_regen_attempts : Nat := 1

/-- `InterviewEngine.__init__` (lines 30-97): seed the state slots, compute the
topic plan with the double empty-fallback, push the intro, generate and push
the warm-up question. `plannerParsed` is the parse outcome inside
`TopicPlannerAgent.build_plan`; `o` supplies the generator/guard oracles used
for the warm-up question. Returns the constructed state and the generator
invocations made. -/
def initEngine (o : StepOracles) (plannerParsed : Option (List String)) (a : InitArgs) :
    EngineState × List QGenCall :=
  let plan_topics := build_plan_topics plannerParsed
  let topic_plan := if plan_topics.isEmpty then default_topics else plan_topics
  let s0 : EngineState :=
    { topic_plan := topic_plan
      current_topic := topic_plan.getD 0 ""
      difficulty := Difficulty.easy
      topic_index := 0
      streak_good := 0
      streak_poor := 0
      last_topic := none
      last_intent := none
      asked_questions_text := []
      asked_topics := []
      history := []
      turn_id := 0
      turns := []
      max_regen_attempts := a.max_regen_attempts }
  let s1 : EngineState :=
    { s0 with history :=
        s0.history ++
          [Msg.mk Role.assistant
            (build_interviewer_intro a.position a.target_grade a.experience)] }
  let gq := generate_question o s1 s1.current_topic s1.difficulty "warmup" false
  let s2 : EngineState :=
    { s1 with asked_questions_text := s1.asked_questions_text ++ [gq.1.question_text],
              asked_topics := s1.asked_topics ++ [s1.current_topic],
              history := s1.history ++ [Msg.mk Role.assistant gq.1.question_text] }
  (s2, gq.2)

/-- Reachable engine states: the result of construction, closed under turns
(with arbitrary oracle outcomes each time). -/
inductive Reachable : EngineState → Prop
  | init (o : StepOracles) (p : Option (List String)) (a : InitArgs) :
      Reachable (initEngine o p a).1
  | next (o : StepOracles) (u : String) {s : EngineState} :
      Reachable s → Reachable (step o s u).state

/-- Python exception kinds relevant to `HiringManagerAgent.build_feedback`:
`json.JSONDecodeError` raised by `json.loads` and pydantic's
`ValidationError` raised by `model_validate`. -/
inductive PyExc
  | jsonDecodeError
  | validationError
deriving DecidableEq, Repr

/-- Opening brace character (written via its code point). -/
def lbrace : Char := Char.ofNat 123

/-- Closing brace character (written via its code point). -/
def rbrace : Char := Char.ofNat 125

/-- Python `str.strip` whitespace test (ASCII whitespace suffices here). -/
def pyIsSpace (c : Char) : Bool :=
  c = ' ' || c = '\t' || c = '\n' || c = '\r' || c = Char.ofNat 11 || c = Char.ofNat 12

/-- Python `s.strip()` over a character list. -/
def pyStrip (s : List Char) : List Char :=
  ((s.dropWhile pyIsSpace).reverse.dropWhile pyIsSpace).reverse

/-- Python `s.find(c)`: index of the first occurrence, `none` for -1. -/
def pyFindChar (s : List Char) (c : Char) : Option Nat :=
  s.findIdx? (· == c)

/-- Python `s.rfind(c)`: index of the last occurrence, `none` for -1. -/
def pyRFindChar (s : List Char) (c : Char) : Option Nat :=
  (s.reverse.findIdx? (· == c)).map (fun i => s.length - 1 - i)

/-- `_safe_json_load` of src/agents.py (lines 18-27): strip, try a full parse,
otherwise parse the substring between the first `{` and the last `}` when
both exist in that order, else re-raise. `loads` is the opaque `json.loads`
capability (generic in the parsed-value type). -/
def safe_json_load {α : Type} (loads : List Char → Except PyExc α) (s0 : List Char) :
    Except PyExc α :=
  let s := pyStrip s0
  match loads s with
  | Except.ok v => Except.ok v
  | Except.error e =>
    match pyFindChar s lbrace, pyRFindChar s rbrace with
    | some start, some stop =>
        if start < stop then loads ((s.drop start).take (stop + 1 - start))
        else Except.error e
    | _, _ => Except.error e

/-- Grade literal of the `FinalFeedback` pydantic model. -/
inductive Grade
  | junior
  | middle
  | senior
deriving DecidableEq, Repr

/-- Hiring recommendation literal of `FinalFeedback`. -/
inductive HiringRec
  | hire
  | noHire
  | strongHire
deriving DecidableEq, Repr

/-- Low/medium/high literal of `FinalFeedback`. -/
inductive Level
  | low
  | medium
  | high
deriving DecidableEq, Repr

/-- Pydantic `FinalFeedback` model (src/agents.py lines 57-70). -/
structure FinalFeedback where
  grade : Grade
  hiring_recommendation : HiringRec
  confidence_score_0_100 : Nat
  confirmed_skills : List String
  knowledge_gaps : List String
  corrections : List String
  clarity : Level
  honesty : Level
  engagement : Level
  roadmap : List String
deriving DecidableEq, Repr

/-- The fallback report constructed in the `except ValidationError` branch of
`build_feedback` (src/agents.py lines 384-395); `raw` is the raw model
output. -/
def fallbackFeedback (raw : List Char) : FinalFeedback :=
  { grade := Grade.junior
    hiring_recommendation := HiringRec.noHire
    confidence_score_0_100 := 45
    confirmed_skills := []
    knowledge_gaps := ["Не удалось корректно сформировать финальный отчёт (ошибка валидации)."]
    corrections := [String.mk (raw.take 300)]
    clarity := Level.medium
    honesty := Level.medium
    engagement := Level.low
    roadmap := ["Повторить базовые темы и попробовать заново."] }

/-- Engine invariant maintained across construction and turns: the plan is
non-empty, the cursor is in range, the committed topic is a plan member, at
most one streak counter is non-zero, and the turn counter equals the number of
logged turns. -/
def EngineInv (s : EngineState) : Prop :=
  s.topic_plan ≠ [] ∧
  s.topic_index < s.topic_plan.length ∧
  s.current_topic ∈ s.topic_plan ∧
  (s.streak_good = 0 ∨ s.streak_poor = 0) ∧
  s.turn_id = s.turns.length

/-- The streak-then-transition update written exactly as the specification
describes it (spec §4.1): ordered streak cases first, then an if/else-if
transition check. Used to compare the source's two-independent-`if` variant
against the spec's wording. -/
def specStreakDifficultyUpdate (s : EngineState) (score : Nat) (quality : Quality) :
    EngineState :=
  let s1 :=
    if score ≥ 75 then
      { s with streak_good := s.streak_good + 1, streak_poor := 0 }
    else if score ≤ 45 ∨ quality = Quality.poor ∨ quality = Quality.unknown then
      { s with streak_poor := s.streak_poor + 1, streak_good := 0 }
    else s
  if s1.streak_good ≥ 2 then
    let d :=
      match s1.difficulty with
      | Difficulty.easy => Difficulty.medium
      | Difficulty.medium => Difficulty.hard
      | Difficulty.hard => Difficulty.hard
    { s1 with difficulty := d, streak_good := 0 }
  else if s1.streak_poor ≥ 2 then
    let d :=
      match s1.difficulty with
      | Difficulty.hard => Difficulty.medium
      | Difficulty.medium => Difficulty.easy
      | Difficulty.easy => Difficulty.easy
    { s1 with difficulty := d, streak_poor := 0 }
  else s1

/-- `HiringManagerAgent.build_feedback` (src/agents.py lines 332-395), from the
raw generation output onward: `try: data = _safe_json_load(raw); return
FinalFeedback.model_validate(data) except ValidationError: return <fallback>`.
Only `ValidationError` is caught; any other exception escapes as
`Except.error`. `loads` is the opaque `json.loads`, `validate` the opaque
`FinalFeedback.model_validate`. -/
def build_feedback {α : Type} (loads : List Char → Except PyExc α)
    (validate : α → Except PyExc FinalFeedback) (raw : List Char) :
    Except PyExc FinalFeedback :=
  match safe_json_load loads raw with
  | Except.error PyExc.validationError => Except.ok (fallbackFeedback raw)
  | Except.error e => Except.error e
  | Except.ok data =>
    match validate data with
    | Except.ok fb => Except.ok fb
    | Except.error PyExc.validationError => Except.ok (fallbackFeedback raw)
    | Except.error e => Except.error e

/-! Concrete scenario data used by the counterexamples and witnesses below. -/

/-- Example constructor arguments for the concrete scenarios. -/
def exArgs : InitArgs :=
  { position := "Python Developer", target_grade := "Junior",
    experience := "1 год опыта", participant_name := "Тест" }

/-- Neutral oracle: default observer output, fixed generator draft, silent
guard, fixed rendered message. -/
def exO : StepOracles :=
  { observe := {}
    qgen := fun _ => { question_text := "вопрос" }
    guardNotes := fun _ _ => ""
    render := "сообщение" }

/-- Freshly constructed engine state shared by the concrete scenarios. -/
def exS0 : EngineState := (initEngine exO none exArgs).1

/-- Oracle whose observer reports a strong answer (score 80) and stays on the
current topic. -/
def oGoodStay : StepOracles :=
  { observe := { answer_quality := Quality.good, score_0_100 := 80, should_move_on := false }
    qgen := fun _ => { question_text := "q" }
    guardNotes := fun _ _ => ""
    render := "ok" }

/-- Oracle whose observer reports score 30 and asks to move on to an in-plan
topic, with the need-hint flag off. -/
def oLowMove : StepOracles :=
  { observe := { answer_quality := Quality.good, score_0_100 := 30, should_move_on := true,
                 next_topic := "problem_solving" }
    qgen := fun _ => { question_text := "q3" }
    guardNotes := fun _ _ => ""
    render := "ok" }

/-- Oracle whose observer reports score 30 and stays on the current topic. -/
def oLowStay : StepOracles :=
  { observe := { answer_quality := Quality.good, score_0_100 := 30, should_move_on := false }
    qgen := fun _ => { question_text := "q" }
    guardNotes := fun _ _ => ""
    render := "ok" }

/-- Oracle whose observer asks to move on to a topic outside every default
plan. -/
def oZzz : StepOracles :=
  { observe := { should_move_on := true, next_topic := "zzz" }
    qgen := fun _ => { question_text := "q" }
    guardNotes := fun _ _ => ""
    render := "ok" }

/-- Neutral stay oracle issuing a fixed question text `q` per turn. -/
def oAsk (q : String) : StepOracles :=
  { observe := { answer_quality := Quality.good, score_0_100 := 50, should_move_on := false }
    qgen := fun _ => { question_text := q }
    guardNotes := fun _ _ => ""
    render := "v" }

/-- Stay oracle whose consistency guard always reports a mismatch. -/
def oMis : StepOracles :=
  { observe := { answer_quality := Quality.good, score_0_100 := 50, should_move_on := false }
    qgen := fun _ => { question_text := "q8" }
    guardNotes := fun _ _ => "mismatch"
    render := "v" }

/-- State after one strong-answer turn from `exS0`. -/
def c1s1 : EngineState := (step oGoodStay exS0 "ответ1").state

/-- State after two strong-answer turns from `exS0` (difficulty has been
promoted to medium). -/
def c1s2 : EngineState := (step oGoodStay c1s1 "ответ2").state

/-- Seven neutral turns from `exS0`, each adding one distinct drafted
question, so the asked-question list holds 8 entries. -/
def c5t1 : EngineState := (step (oAsk "q1") exS0 "a").state

/-- Second neutral turn of the anti-repetition scenario. -/
def c5t2 : EngineState := (step (oAsk "q2") c5t1 "a").state

/-- Third neutral turn of the anti-repetition scenario. -/
def c5t3 : EngineState := (step (oAsk "q3") c5t2 "a").state

/-- Fourth neutral turn of the anti-repetition scenario. -/
def c5t4 : EngineState := (step (oAsk "q4") c5t3 "a").state

/-- Fifth neutral turn of the anti-repetition scenario. -/
def c5t5 : EngineState := (step (oAsk "q5") c5t4 "a").state

/-- Sixth neutral turn of the anti-repetition scenario. -/
def c5t6 : EngineState := (step (oAsk "q6") c5t5 "a").state

/-- Seventh neutral turn of the anti-repetition scenario. -/
def c5t7 : EngineState := (step (oAsk "q7") c5t6 "a").state

/-- A second turn in which the generator repeats the draft text "q1", so the
asked-question list holds the duplicate entries ["вопрос", "q1", "q1"]. -/
def c5d2 : EngineState := (step (oAsk "q1") c5t1 "a").state

/-! Helper lemmas: field preservation through the stages of `step`. -/

@[simp] theorem updateStreaks_topic_plan (s : EngineState) (p : ObserverOutput) :
    (updateStreaks s p).topic_plan = s.topic_plan := by
  unfold updateStreaks
  repeat' split
  all_goals rfl

@[simp] theorem updateStreaks_topic_index (s : EngineState) (p : ObserverOutput) :
    (updateStreaks s p).topic_index = s.topic_index := by
  unfold updateStreaks
  repeat' split
  all_goals rfl

@[simp] theorem updateStreaks_current_topic (s : EngineState) (p : ObserverOutput) :
    (updateStreaks s p).current_topic = s.current_topic := by
  unfold updateStreaks
  repeat' split
  all_goals rfl

@[simp] theorem updateStreaks_difficulty (s : EngineState) (p : ObserverOutput) :
    (updateStreaks s p).difficulty = s.difficulty := by
  unfold updateStreaks
  repeat' split
  all_goals rfl

@[simp] theorem updateStreaks_history (s : EngineState) (p : ObserverOutput) :
    (updateStreaks s p).history = s.history := by
  unfold updateStreaks
  repeat' split
  all_goals rfl

@[simp] theorem updateStreaks_turns (s : EngineState) (p : ObserverOutput) :
    (updateStreaks s p).turns = s.turns := by
  unfold updateStreaks
  repeat' split
  all_goals rfl

@[simp] theorem updateStreaks_turn_id (s : EngineState) (p : ObserverOutput) :
    (updateStreaks s p).turn_id = s.turn_id := by
  unfold updateStreaks
  repeat' split
  all_goals rfl

@[simp] theorem updateStreaks_asked (s : EngineState) (p : ObserverOutput) :
    (updateStreaks s p).asked_questions_text = s.asked_questions_text := by
  unfold updateStreaks
  repeat' split
  all_goals rfl

@[simp] theorem updateStreaks_max_regen (s : EngineState) (p : ObserverOutput) :
    (updateStreaks s p).max_regen_attempts = s.max_regen_attempts := by
  unfold updateStreaks
  repeat' split
  all_goals rfl

theorem updateStreaks_streak_or (s : EngineState) (p : ObserverOutput)
    (h : s.streak_good = 0 ∨ s.streak_poor = 0) :
    (updateStreaks s p).streak_good = 0 ∨ (updateStreaks s p).streak_poor = 0 := by
  unfold updateStreaks
  repeat' split
  all_goals first
  | simp
  | exact h

@[simp] theorem update_difficulty_topic_plan (s : EngineState) :
    (update_difficulty_by_streaks s).topic_plan = s.topic_plan := by
  simp only [update_difficulty_by_streaks]
  repeat' split
  all_goals rfl

@[simp] theorem update_difficulty_topic_index (s : EngineState) :
    (update_difficulty_by_streaks s).topic_index = s.topic_index := by
  simp only [update_difficulty_by_streaks]
  repeat' split
  all_goals rfl

@[simp] theorem update_difficulty_current_topic (s : EngineState) :
    (update_difficulty_by_streaks s).current_topic = s.current_topic := by
  simp only [update_difficulty_by_streaks]
  repeat' split
  all_goals rfl

@[simp] theorem update_difficulty_history (s : EngineState) :
    (update_difficulty_by_streaks s).history = s.history := by
  simp only [update_difficulty_by_streaks]
  repeat' split
  all_goals rfl

@[simp] theorem update_difficulty_turns (s : EngineState) :
    (update_difficulty_by_streaks s).turns = s.turns := by
  simp only [update_difficulty_by_streaks]
  repeat' split
  all_goals rfl

@[simp] theorem update_difficulty_turn_id (s : EngineState) :
    (update_difficulty_by_streaks s).turn_id = s.turn_id := by
  simp only [update_difficulty_by_streaks]
  repeat' split
  all_goals rfl

@[simp] theorem update_difficulty_asked (s : EngineState) :
    (update_difficulty_by_streaks s).asked_questions_text = s.asked_questions_text := by
  simp only [update_difficulty_by_streaks]
  repeat' split
  all_goals rfl

@[simp] theorem update_difficulty_max_regen (s : EngineState) :
    (update_difficulty_by_streaks s).max_regen_attempts = s.max_regen_attempts := by
  simp only [update_difficulty_by_streaks]
  repeat' split
  all_goals rfl

theorem update_difficulty_streak_or (s : EngineState)
    (h : s.streak_good = 0 ∨ s.streak_poor = 0) :
    (update_difficulty_by_streaks s).streak_good = 0 ∨
      (update_difficulty_by_streaks s).streak_poor = 0 := by
  simp only [update_difficulty_by_streaks]
  repeat' split
  all_goals first
  | simp
  | exact h

@[simp] theorem advance_topic_topic_plan (s : EngineState) :
    (advance_topic s).2.topic_plan = s.topic_plan := by
  simp only [advance_topic]
  repeat' split
  all_goals rfl

@[simp] theorem advance_topic_current_topic (s : EngineState) :
    (advance_topic s).2.current_topic = s.current_topic := by
  simp only [advance_topic]
  repeat' split
  all_goals rfl

@[simp] theorem advance_topic_difficulty (s : EngineState) :
    (advance_topic s).2.difficulty = s.difficulty := by
  simp only [advance_topic]
  repeat' split
  all_goals rfl

@[simp] theorem advance_topic_streak_good (s : EngineState) :
    (advance_topic s).2.streak_good = s.streak_good := by
  simp only [advance_topic]
  repeat' split
  all_goals rfl

@[simp] theorem advance_topic_streak_poor (s : EngineState) :
    (advance_topic s).2.streak_poor = s.streak_poor := by
  simp only [advance_topic]
  repeat' split
  all_goals rfl

@[simp] theorem advance_topic_history (s : EngineState) :
    (advance_topic s).2.history = s.history := by
  simp only [advance_topic]
  repeat' split
  all_goals rfl

@[simp] theorem advance_topic_turns (s : EngineState) :
    (advance_topic s).2.turns = s.turns := by
  simp only [advance_topic]
  repeat' split
  all_goals rfl

@[simp] theorem advance_topic_turn_id (s : EngineState) :
    (advance_topic s).2.turn_id = s.turn_id := by
  simp only [advance_topic]
  repeat' split
  all_goals rfl

@[simp] theorem advance_topic_asked (s : EngineState) :
    (advance_topic s).2.asked_questions_text = s.asked_questions_text := by
  simp only [advance_topic]
  repeat' split
  all_goals rfl

@[simp] theorem advance_topic_max_regen (s : EngineState) :
    (advance_topic s).2.max_regen_attempts = s.max_regen_attempts := by
  simp only [advance_topic]
  repeat' split
  all_goals rfl

theorem advance_topic_index_eq (s : EngineState) :
    (advance_topic s).2.topic_index =
      if s.topic_index < s.topic_plan.length - 1 then s.topic_index + 1
      else s.topic_index := by
  simp only [advance_topic]
  repeat' split
  all_goals simp_all

theorem advance_topic_fst_eq (s : EngineState) :
    (advance_topic s).1 = s.topic_plan.getD (advance_topic s).2.topic_index "" := by
  simp only [advance_topic]
  repeat' split
  all_goals rfl

@[simp] theorem decideTopic_topic_plan (s : EngineState) (p : ObserverOutput) :
    (decideTopic s p).state.topic_plan = s.topic_plan := by
  simp only [decideTopic]
  repeat' split
  all_goals simp

@[simp] theorem decideTopic_current_topic (s : EngineState) (p : ObserverOutput) :
    (decideTopic s p).state.current_topic = s.current_topic := by
  simp only [decideTopic]
  repeat' split
  all_goals simp

@[simp] theorem decideTopic_streak_good (s : EngineState) (p : ObserverOutput) :
    (decideTopic s p).state.streak_good = s.streak_good := by
  simp only [decideTopic]
  repeat' split
  all_goals simp

@[simp] theorem decideTopic_streak_poor (s : EngineState) (p : ObserverOutput) :
    (decideTopic s p).state.streak_poor = s.streak_poor := by
  simp only [decideTopic]
  repeat' split
  all_goals simp

@[simp] theorem decideTopic_history (s : EngineState) (p : ObserverOutput) :
    (decideTopic s p).state.history = s.history := by
  simp only [decideTopic]
  repeat' split
  all_goals simp

@[simp] theorem decideTopic_turns (s : EngineState) (p : ObserverOutput) :
    (decideTopic s p).state.turns = s.turns := by
  simp only [decideTopic]
  repeat' split
  all_goals simp

@[simp] theorem decideTopic_turn_id (s : EngineState) (p : ObserverOutput) :
    (decideTopic s p).state.turn_id = s.turn_id := by
  simp only [decideTopic]
  repeat' split
  all_goals simp

@[simp] theorem decideTopic_asked (s : EngineState) (p : ObserverOutput) :
    (decideTopic s p).state.asked_questions_text = s.asked_questions_text := by
  simp only [decideTopic]
  repeat' split
  all_goals simp

@[simp] theorem decideTopic_max_regen (s : EngineState) (p : ObserverOutput) :
    (decideTopic s p).state.max_regen_attempts = s.max_regen_attempts := by
  simp only [decideTopic]
  repeat' split
  all_goals simp

theorem decideTopic_plan_score (s : EngineState) (p : ObserverOutput) :
    (decideTopic s p).plan.score_0_100 = p.score_0_100 := by
  simp only [decideTopic]
  repeat' split
  all_goals rfl

theorem decideTopic_plan_intent (s : EngineState) (p : ObserverOutput) :
    (decideTopic s p).plan.intent = p.intent := by
  simp only [decideTopic]
  repeat' split
  all_goals rfl

/-! Helper lemmas: lists, the regeneration loop, and the topic decision. -/

theorem getD_mem_of_lt : ∀ (l : List String) (i : Nat), i < l.length → l.getD i "" ∈ l
  | a :: l, 0, _ => List.mem_cons_self a l
  | a :: l, i + 1, h =>
      List.mem_cons_of_mem a (getD_mem_of_lt l i (by simpa using Nat.lt_of_succ_lt_succ h))

theorem pyLastN_length_le (n : Nat) (xs : List String) : (pyLastN n xs).length ≤ n := by
  simp only [pyLastN, List.length_drop]
  omega

theorem pyLastN_suffix (n : Nat) (xs : List String) :
    xs.take (xs.length - n) ++ pyLastN n xs = xs := by
  simpa only [pyLastN] using List.take_append_drop (xs.length - n) xs

theorem regenLoop_length_le (o : StepOracles) (topic : String) (d : Difficulty)
    (intent : String) (hint : Bool) (avoid : List String) :
    ∀ (n : Nat) (g : GeneratedQuestion),
      (regenLoop o topic d intent hint avoid n g).2.length ≤ n := by
  intro n
  induction n with
  | zero =>
    intro g
    simp [regenLoop]
  | succ k ih =>
    intro g
    simp only [regenLoop]
    split
    · simp
    · simpa using ih _

theorem regenLoop_calls_mem (o : StepOracles) (topic : String) (d : Difficulty)
    (intent : String) (hint : Bool) (avoid : List String) :
    ∀ (n : Nat) (g : GeneratedQuestion) (c : QGenCall),
      c ∈ (regenLoop o topic d intent hint avoid n g).2 →
        c.topic = topic ∧ c.difficulty = d ∧ c.need_hint = hint ∧
          c.intent = intent ++ "_REGEN_TOPIC_MISMATCH" ∧
          ∃ q, c.avoid_questions = avoid ++ [q] := by
  intro n
  induction n with
  | zero =>
    intro g c hc
    simp [regenLoop] at hc
  | succ k ih =>
    intro g c hc
    simp only [regenLoop] at hc
    split at hc
    · simp at hc
    · simp only [List.mem_cons] at hc
      rcases hc with hc | hc
      · subst hc
        exact ⟨rfl, rfl, rfl, rfl, g.question_text, rfl⟩
      · exact ih _ c hc

theorem generate_question_length_le (o : StepOracles) (s : EngineState) (topic : String)
    (d : Difficulty) (intent : String) (hint : Bool) :
    (generate_question o s topic d intent hint).2.length ≤ s.max_regen_attempts + 1 := by
  simp only [generate_question, List.length_cons]
  exact Nat.succ_le_succ (regenLoop_length_le o topic d intent hint _ _ _)

theorem generate_question_head (o : StepOracles) (s : EngineState) (topic : String)
    (d : Difficulty) (intent : String) (hint : Bool) :
    (generate_question o s topic d intent hint).2.head? =
      some { topic := topic, difficulty := d, intent := intent, need_hint := hint,
             avoid_questions := pyLastN 8 s.asked_questions_text } := by
  simp [generate_question]

theorem generate_question_calls_mem (o : StepOracles) (s : EngineState) (topic : String)
    (d : Difficulty) (intent : String) (hint : Bool) (c : QGenCall)
    (hc : c ∈ (generate_question o s topic d intent hint).2) :
    c.topic = topic ∧ c.need_hint = hint ∧
      (c.avoid_questions = pyLastN 8 s.asked_questions_text ∨
        ∃ q, c.avoid_questions = pyLastN 8 s.asked_questions_text ++ [q]) := by
  simp only [generate_question, List.mem_cons] at hc
  rcases hc with hc | hc
  · subst hc
    exact ⟨rfl, rfl, Or.inl rfl⟩
  · obtain ⟨h1, _, h3, _, q, h5⟩ := regenLoop_calls_mem o topic d intent hint _ _ _ c hc
    exact ⟨h1, h3, Or.inr ⟨q, h5⟩⟩

theorem generate_question_tail_mem (o : StepOracles) (s : EngineState) (topic : String)
    (d : Difficulty) (intent : String) (hint : Bool) (c : QGenCall)
    (hc : c ∈ (generate_question o s topic d intent hint).2.tail) :
    ∃ q, c.avoid_questions = pyLastN 8 s.asked_questions_text ++ [q] := by
  simp only [generate_question, List.tail_cons] at hc
  obtain ⟨_, _, _, _, q, h5⟩ := regenLoop_calls_mem o topic d intent hint _ _ _ c hc
  exact ⟨q, h5⟩

theorem decideTopic_inv (s : EngineState) (p : ObserverOutput)
    (hidx : s.topic_index < s.topic_plan.length)
    (hmem : s.current_topic ∈ s.topic_plan) :
    (decideTopic s p).planned_topic ∈ s.topic_plan ∧
      (decideTopic s p).state.topic_index < s.topic_plan.length := by
  have hlen : 0 < s.topic_plan.length := Nat.lt_of_le_of_lt (Nat.zero_le _) hidx
  simp only [decideTopic]
  split
  · split
    · exact ⟨hmem, hidx⟩
    · exact ⟨hmem, hidx⟩
  · split
    · rename_i hin
      refine ⟨hin, ?_⟩
      simpa using List.indexOf_lt_length.2 hin
    · have hidx' : (advance_topic s).2.topic_index < s.topic_plan.length := by
        rw [advance_topic_index_eq]
        split
        · omega
        · exact hidx
      have hmem' : (advance_topic s).1 ∈ s.topic_plan := by
        rw [advance_topic_fst_eq]
        exact getD_mem_of_lt _ _ hidx'
      refine ⟨hmem', ?_⟩
      simpa using List.indexOf_lt_length.2 hmem'

/-! Helper lemmas: field behaviour of the named step stages. -/

@[simp] theorem stepStreaksDone_topic_plan (o : StepOracles) (s : EngineState) (u : String) :
    (stepStreaksDone o s u).topic_plan = s.topic_plan := by
  simp [stepStreaksDone, stepUserPushed]

@[simp] theorem stepStreaksDone_topic_index (o : StepOracles) (s : EngineState) (u : String) :
    (stepStreaksDone o s u).topic_index = s.topic_index := by
  simp [stepStreaksDone, stepUserPushed]

@[simp] theorem stepStreaksDone_current_topic (o : StepOracles) (s : EngineState) (u : String) :
    (stepStreaksDone o s u).current_topic = s.current_topic := by
  simp [stepStreaksDone, stepUserPushed]

@[simp] theorem stepStreaksDone_history (o : StepOracles) (s : EngineState) (u : String) :
    (stepStreaksDone o s u).history = s.history ++ [Msg.mk Role.user u] := by
  simp [stepStreaksDone, stepUserPushed]

@[simp] theorem stepStreaksDone_turns (o : StepOracles) (s : EngineState) (u : String) :
    (stepStreaksDone o s u).turns = s.turns := by
  simp [stepStreaksDone, stepUserPushed]

@[simp] theorem stepStreaksDone_turn_id (o : StepOracles) (s : EngineState) (u : String) :
    (stepStreaksDone o s u).turn_id = s.turn_id + 1 := by
  simp [stepStreaksDone, stepUserPushed]

@[simp] theorem stepStreaksDone_asked (o : StepOracles) (s : EngineState) (u : String) :
    (stepStreaksDone o s u).asked_questions_text = s.asked_questions_text := by
  simp [stepStreaksDone, stepUserPushed]

@[simp] theorem stepStreaksDone_max_regen (o : StepOracles) (s : EngineState) (u : String) :
    (stepStreaksDone o s u).max_regen_attempts = s.max_regen_attempts := by
  simp [stepStreaksDone, stepUserPushed]

theorem stepStreaksDone_streak_or (o : StepOracles) (s : EngineState) (u : String)
    (h : s.streak_good = 0 ∨ s.streak_poor = 0) :
    (stepStreaksDone o s u).streak_good = 0 ∨ (stepStreaksDone o s u).streak_poor = 0 := by
  have h1 : (stepUserPushed s u).streak_good = 0 ∨ (stepUserPushed s u).streak_poor = 0 := h
  exact update_difficulty_streak_or _ (updateStreaks_streak_or _ _ h1)

@[simp] theorem stepCommitted_topic_plan (o : StepOracles) (s : EngineState) (u : String) :
    (stepCommitted o s u).topic_plan = s.topic_plan := by
  simp [stepCommitted, stepDecision]

@[simp] theorem stepCommitted_current_topic (o : StepOracles) (s : EngineState) (u : String) :
    (stepCommitted o s u).current_topic = (stepDecision o s u).planned_topic := by
  simp [stepCommitted]

@[simp] theorem stepCommitted_topic_index (o : StepOracles) (s : EngineState) (u : String) :
    (stepCommitted o s u).topic_index = (stepDecision o s u).state.topic_index := by
  simp [stepCommitted]

@[simp] theorem stepCommitted_difficulty (o : StepOracles) (s : EngineState) (u : String) :
    (stepCommitted o s u).difficulty = (stepDecision o s u).state.difficulty := by
  simp [stepCommitted]

@[simp] theorem stepCommitted_history (o : StepOracles) (s : EngineState) (u : String) :
    (stepCommitted o s u).history = s.history ++ [Msg.mk Role.user u] := by
  simp [stepCommitted, stepDecision]

@[simp] theorem stepCommitted_turns (o : StepOracles) (s : EngineState) (u : String) :
    (stepCommitted o s u).turns = s.turns := by
  simp [stepCommitted, stepDecision]

@[simp] theorem stepCommitted_turn_id (o : StepOracles) (s : EngineState) (u : String) :
    (stepCommitted o s u).turn_id = s.turn_id + 1 := by
  simp [stepCommitted, stepDecision]

@[simp] theorem stepCommitted_asked (o : StepOracles) (s : EngineState) (u : String) :
    (stepCommitted o s u).asked_questions_text = s.asked_questions_text := by
  simp [stepCommitted, stepDecision]

@[simp] theorem stepCommitted_max_regen (o : StepOracles) (s : EngineState) (u : String) :
    (stepCommitted o s u).max_regen_attempts = s.max_regen_attempts := by
  simp [stepCommitted, stepDecision]

theorem stepCommitted_streak_or (o : StepOracles) (s : EngineState) (u : String)
    (h : s.streak_good = 0 ∨ s.streak_poor = 0) :
    (stepCommitted o s u).streak_good = 0 ∨ (stepCommitted o s u).streak_poor = 0 := by
  have h2 := stepStreaksDone_streak_or o s u h
  simp only [stepCommitted, stepDecision]
  rcases h2 with h2 | h2
  · exact Or.inl (by simp [h2])
  · exact Or.inr (by simp [h2])

/-! Helper lemmas: `step`-level facts. -/

theorem step_state_topic_plan (o : StepOracles) (s : EngineState) (u : String) :
    (step o s u).state.topic_plan = s.topic_plan := by
  simp [step]

theorem step_state_turn_id (o : StepOracles) (s : EngineState) (u : String) :
    (step o s u).state.turn_id = s.turn_id + 1 := by
  simp [step]

theorem step_state_max_regen (o : StepOracles) (s : EngineState) (u : String) :
    (step o s u).state.max_regen_attempts = s.max_regen_attempts := by
  simp [step]

theorem step_visible_eq (o : StepOracles) (s : EngineState) (u : String) :
    (step o s u).visible = o.render := by
  simp [step]

theorem step_state_history (o : StepOracles) (s : EngineState) (u : String) :
    (step o s u).state.history =
      s.history ++ [Msg.mk Role.user u, Msg.mk Role.assistant (step o s u).visible] := by
  simp [step]

theorem step_state_current_topic (o : StepOracles) (s : EngineState) (u : String) :
    (step o s u).state.current_topic = (stepDecision o s u).planned_topic := by
  simp [step]

theorem step_state_topic_index (o : StepOracles) (s : EngineState) (u : String) :
    (step o s u).state.topic_index = (stepDecision o s u).state.topic_index := by
  simp [step]

theorem step_state_difficulty (o : StepOracles) (s : EngineState) (u : String) :
    (step o s u).state.difficulty = (stepDecision o s u).state.difficulty := by
  simp [step]

theorem step_state_streak_good (o : StepOracles) (s : EngineState) (u : String) :
    (step o s u).state.streak_good = (stepCommitted o s u).streak_good := by
  simp [step]

theorem step_state_streak_poor (o : StepOracles) (s : EngineState) (u : String) :
    (step o s u).state.streak_poor = (stepCommitted o s u).streak_poor := by
  simp [step]

theorem step_genCalls_eq (o : StepOracles) (s : EngineState) (u : String) :
    (step o s u).genCalls = (stepGen o s u).2 := by
  simp [step]

theorem step_planOut_eq (o : StepOracles) (s : EngineState) (u : String) :
    (step o s u).planOut = (stepDecision o s u).plan := by
  simp [step]

theorem step_state_asked (o : StepOracles) (s : EngineState) (u : String) :
    (step o s u).state.asked_questions_text =
      s.asked_questions_text ++ [(stepGen o s u).1.question_text] := by
  simp [step]

theorem step_state_turns (o : StepOracles) (s : EngineState) (u : String) :
    ∃ tl : TurnLog, (step o s u).state.turns = s.turns ++ [tl] ∧
      tl.turn_id = s.turn_id + 1 ∧
      tl.difficulty = (stepDecision o s u).state.difficulty ∧
      tl.topic = (stepDecision o s u).planned_topic ∧
      tl.score_0_100 = o.observe.score_0_100 ∧
      tl.user_message = u ∧
      tl.agent_visible_message = (step o s u).visible := by
  refine ⟨{ turn_id := s.turn_id + 1
            topic := (stepDecision o s u).planned_topic
            difficulty := (stepDecision o s u).state.difficulty
            score_0_100 := o.observe.score_0_100
            ideal_answer_short := (stepGen o s u).1.ideal_answer_short
            agent_visible_message := o.render
            user_message := u
            internal_thoughts :=
              internalLog (stepDecision o s u).planned_topic (stepDecision o s u).plan
                (stepDecision o s u).state.difficulty }, ?_, rfl, rfl, rfl, rfl, rfl, ?_⟩
  · simp [step, stepDecision, decideTopic_plan_score]
  · simp [step]

/-! Helper lemmas: construction and the reachability invariant. -/

theorem build_plan_topics_ne_nil (p : Option (List String)) : build_plan_topics p ≠ [] := by
  cases p with
  | none => simp [build_plan_topics, default_topics]
  | some ts =>
    simp only [build_plan_topics]
    split
    · simp [default_topics]
    · rename_i h
      intro hnil
      rw [hnil] at h
      simp at h

theorem initEngine_topic_plan (o : StepOracles) (p : Option (List String)) (a : InitArgs) :
    (initEngine o p a).1.topic_plan =
      if (build_plan_topics p).isEmpty then default_topics else build_plan_topics p := rfl

theorem initEngine_topic_plan_ne_nil (o : StepOracles) (p : Option (List String))
    (a : InitArgs) : (initEngine o p a).1.topic_plan ≠ [] := by
  rw [initEngine_topic_plan]
  split
  · simp [default_topics]
  · exact build_plan_topics_ne_nil p

theorem initEngine_topic_index (o : StepOracles) (p : Option (List String)) (a : InitArgs) :
    (initEngine o p a).1.topic_index = 0 := rfl

theorem initEngine_current_topic (o : StepOracles) (p : Option (List String)) (a : InitArgs) :
    (initEngine o p a).1.current_topic = (initEngine o p a).1.topic_plan.getD 0 "" := rfl

theorem initEngine_difficulty (o : StepOracles) (p : Option (List String)) (a : InitArgs) :
    (initEngine o p a).1.difficulty = Difficulty.easy := rfl

theorem initEngine_streak_good (o : StepOracles) (p : Option (List String)) (a : InitArgs) :
    (initEngine o p a).1.streak_good = 0 := rfl

theorem initEngine_streak_poor (o : StepOracles) (p : Option (List String)) (a : InitArgs) :
    (initEngine o p a).1.streak_poor = 0 := rfl

theorem initEngine_turn_id (o : StepOracles) (p : Option (List String)) (a : InitArgs) :
    (initEngine o p a).1.turn_id = 0 := rfl

theorem initEngine_turns (o : StepOracles) (p : Option (List String)) (a : InitArgs) :
    (initEngine o p a).1.turns = [] := rfl

theorem engine_inv_of_reachable {s : EngineState} (h : Reachable s) : EngineInv s := by
  induction h with
  | init o p a =>
    have hne := initEngine_topic_plan_ne_nil o p a
    refine ⟨hne, ?_, ?_, Or.inl (initEngine_streak_good o p a), rfl⟩
    · rw [initEngine_topic_index]
      exact List.length_pos.2 hne
    · rw [initEngine_current_topic]
      exact getD_mem_of_lt _ _ (List.length_pos.2 hne)
  | next o u hs ih =>
    rename_i s'
    obtain ⟨hne, hidx, hmem, hstreak, hid⟩ := ih
    have hdec := decideTopic_inv (stepStreaksDone o s' u) o.observe
      (by simpa using hidx) (by simpa using hmem)
    refine ⟨?_, ?_, ?_, ?_, ?_⟩
    · rw [step_state_topic_plan]
      exact hne
    · rw [step_state_topic_index, step_state_topic_plan]
      simpa [stepDecision] using hdec.2
    · rw [step_state_current_topic, step_state_topic_plan]
      simpa [stepDecision] using hdec.1
    · rw [step_state_streak_good, step_state_streak_poor]
      exact stepCommitted_streak_or o s' u hstreak
    · obtain ⟨tl, hturns, hturnid, _⟩ := step_state_turns o s' u
      rw [step_state_turn_id, hturns]
      simp [hid]

theorem getD_eq_getElem_str : ∀ (l : List String) (i : Nat) (h : i < l.length),
    l.getD i "" = l[i]
  | _ :: _, 0, _ => rfl
  | _ :: l, i + 1, h => getD_eq_getElem_str l i (by simpa using Nat.lt_of_succ_lt_succ h)

theorem spec_equiv (s : EngineState) (p : ObserverOutput)
    (h : s.streak_good = 0 ∨ s.streak_poor = 0) :
    update_difficulty_by_streaks (updateStreaks s p) =
      specStreakDifficultyUpdate s p.score_0_100 p.answer_quality := by
  unfold updateStreaks specStreakDifficultyUpdate update_difficulty_by_streaks
  rcases h with h0 | h0 <;>
    simp only [h0] <;>
    (repeat' split) <;>
    first
    | rfl
    | omega
    | simp_all

theorem generate_question_mismatch (o : StepOracles) (s : EngineState) (topic : String)
    (d : Difficulty) (intent : String) (hint : Bool)
    (hmax : s.max_regen_attempts = 1)
    (hg : ∀ q, topic_guard_ok (o.guardNotes topic q) = false) :
    ∃ c1 : QGenCall,
      (generate_question o s topic d intent hint).2 =
        [{ topic := topic, difficulty := d, intent := intent, need_hint := hint,
           avoid_questions := pyLastN 8 s.asked_questions_text }, c1] ∧
      (generate_question o s topic d intent hint).1 = o.qgen c1 := by
  refine ⟨{ topic := topic, difficulty := d, intent := intent ++ "_REGEN_TOPIC_MISMATCH",
            need_hint := hint,
            avoid_questions := pyLastN 8 s.asked_questions_text ++
              [(o.qgen { topic := topic, difficulty := d, intent := intent, need_hint := hint,
                         avoid_questions := pyLastN 8 s.asked_questions_text }).question_text] },
          ?_, ?_⟩ <;>
    simp [generate_question, hmax, regenLoop, hg]

theorem regenLoop_head_avoid (o : StepOracles) (topic : String) (d : Difficulty)
    (intent : String) (hint : Bool) (avoid : List String) (n : Nat) (g : GeneratedQuestion)
    (c : QGenCall) (hc : (regenLoop o topic d intent hint avoid n g).2.head? = some c) :
    topic_guard_ok (o.guardNotes topic g.question_text) = false ∧
    c.avoid_questions = avoid ++ [g.question_text] := by
  cases n with
  | zero => simp [regenLoop] at hc
  | succ k =>
    simp only [regenLoop] at hc
    split at hc
    · simp at hc
    · rename_i hguard
      simp only [List.head?_cons, Option.some.injEq] at hc
      subst hc
      refine ⟨?_, rfl⟩
      cases hb : topic_guard_ok (o.guardNotes topic g.question_text)
      · rfl
      · exact absurd hb hguard

theorem regenLoop_chain (o : StepOracles) (topic : String) (d : Difficulty)
    (intent : String) (hint : Bool) (avoid : List String) :
    ∀ (n : Nat) (g : GeneratedQuestion),
      List.Chain' (fun c c' =>
        topic_guard_ok (o.guardNotes topic (o.qgen c).question_text) = false ∧
        c'.avoid_questions = avoid ++ [(o.qgen c).question_text])
        (regenLoop o topic d intent hint avoid n g).2 := by
  intro n
  induction n with
  | zero =>
    intro g
    simp [regenLoop]
  | succ k ih =>
    intro g
    simp only [regenLoop]
    split
    · simp
    · rw [List.chain'_cons']
      refine ⟨?_, ih _⟩
      intro b hb
      exact regenLoop_head_avoid o topic d intent hint avoid k _ b (Option.mem_def.mp hb)

theorem generate_question_chain (o : StepOracles) (s : EngineState) (topic : String)
    (d : Difficulty) (intent : String) (hint : Bool) :
    List.Chain' (fun c c' =>
      topic_guard_ok (o.guardNotes topic (o.qgen c).question_text) = false ∧
      c'.avoid_questions =
        pyLastN 8 s.asked_questions_text ++ [(o.qgen c).question_text])
      (generate_question o s topic d intent hint).2 := by
  simp only [generate_question]
  rw [List.chain'_cons']
  refine ⟨?_, regenLoop_chain o topic d intent hint _ _ _⟩
  intro b hb
  exact regenLoop_head_avoid o topic d intent hint _ _ _ b (Option.mem_def.mp hb)

/-! Claim theorems. -/

/-- C2 (code_bug evidence): when the raw finalization output cannot be parsed
as JSON (every `json.loads` attempt raises `JSONDecodeError`, as for text with
no braces), `build_feedback` propagates the exception instead of returning the
fallback report, because only `ValidationError` is caught. -/
theorem c2_unparsable_raises {α : Type} (loads : List Char → Except PyExc α)
    (validate : α → Except PyExc FinalFeedback) (raw : List Char)
    (hl : ∀ t, loads t = Except.error PyExc.jsonDecodeError) :
    build_feedback loads validate raw = Except.error PyExc.jsonDecodeError := by
  have h1 : safe_json_load loads raw = Except.error PyExc.jsonDecodeError := by
    unfold safe_json_load
    simp only [hl]
    cases hf : pyFindChar (pyStrip raw) lbrace <;>
      cases hr : pyRFindChar (pyStrip raw) rbrace <;>
      simp [hl, hf, hr]
  unfold build_feedback
  rw [h1]

/-- C2 witness: a concrete `json.loads` model that always raises
`JSONDecodeError` (matching raw output such as `"Отчёт не готов"`, which holds
no braces) makes `build_feedback` raise rather than produce the fallback
report. -/
theorem c2_unparsable_raises_witness :
    (∀ t : List Char,
      (fun _ : List Char => (Except.error PyExc.jsonDecodeError : Except PyExc Unit)) t =
        Except.error PyExc.jsonDecodeError) ∧
    build_feedback (fun _ : List Char => (Except.error PyExc.jsonDecodeError : Except PyExc Unit))
      (fun _ => Except.error PyExc.validationError) "Отчёт не готов".toList =
      Except.error PyExc.jsonDecodeError :=
  ⟨fun _ => rfl, c2_unparsable_raises _ _ _ (fun _ => rfl)⟩

/-- C3: on every reachable state, one turn's streak-and-difficulty update (the
streak update followed by the two transition checks, exactly as executed by
`step`) coincides with the specification's ordered description: streak cases
first (score ≥ 75; score ≤ 45 or poor/unknown quality; otherwise unchanged),
then promote on `streak_good ≥ 2` (hard stays hard, reset), else demote on
`streak_poor ≥ 2` (easy stays easy, reset); and the difficulty always remains
one of easy/medium/hard. -/
theorem c3_streak_then_transition (o : StepOracles) (s : EngineState) (u : String)
    (hs : Reachable s) :
    stepStreaksDone o s u =
      specStreakDifficultyUpdate (stepUserPushed s u) o.observe.score_0_100
        o.observe.answer_quality ∧
    ((stepStreaksDone o s u).difficulty = Difficulty.easy ∨
     (stepStreaksDone o s u).difficulty = Difficulty.medium ∨
     (stepStreaksDone o s u).difficulty = Difficulty.hard) := by
  have h := (engine_inv_of_reachable hs).2.2.2.1
  constructor
  · exact spec_equiv (stepUserPushed s u) o.observe h
  · cases h' : (stepStreaksDone o s u).difficulty <;> simp

/-- C3 witness: the equivalence evaluated on the freshly constructed state
with the neutral oracle. -/
theorem c3_streak_then_transition_witness :
    stepStreaksDone exO exS0 "w" =
      specStreakDifficultyUpdate (stepUserPushed exS0 "w") exO.observe.score_0_100
        exO.observe.answer_quality ∧
    ((stepStreaksDone exO exS0 "w").difficulty = Difficulty.easy ∨
     (stepStreaksDone exO exS0 "w").difficulty = Difficulty.medium ∨
     (stepStreaksDone exO exS0 "w").difficulty = Difficulty.hard) :=
  c3_streak_then_transition exO exS0 "w" (Reachable.init exO none exArgs)

/-- C4: on every reachable state the committed topic is a member of the topic
plan and the cursor is a valid offset; one further turn commits a topic that
is again a member of the (unchanged) plan, and when the evaluation says not to
move on the committed topic equals the prior committed topic. -/
theorem c4_topic_membership (s : EngineState) (hs : Reachable s) :
    s.current_topic ∈ s.topic_plan ∧
    s.topic_index < s.topic_plan.length ∧
    ∀ (o : StepOracles) (u : String),
      (step o s u).state.current_topic ∈ s.topic_plan ∧
      (o.observe.should_move_on = false →
        (step o s u).state.current_topic = s.current_topic) := by
  obtain ⟨hne, hidx, hmem, _, _⟩ := engine_inv_of_reachable hs
  refine ⟨hmem, hidx, fun o u => ⟨?_, ?_⟩⟩
  · have hdec := decideTopic_inv (stepStreaksDone o s u) o.observe
      (by simpa using hidx) (by simpa using hmem)
    rw [step_state_current_topic]
    simpa [stepDecision] using hdec.1
  · intro hmov
    rw [step_state_current_topic]
    simp [stepDecision, decideTopic, hmov]
    split <;> rfl

/-- C4 witness: membership and the stay-equality evaluated on the freshly
constructed state, with an observer that reports score 30 and stays. -/
theorem c4_topic_membership_witness :
    exS0.current_topic ∈ exS0.topic_plan ∧
    (step oLowStay exS0 "w").state.current_topic ∈ exS0.topic_plan ∧
    (step oLowStay exS0 "w").state.current_topic = exS0.current_topic :=
  ⟨(c4_topic_membership exS0 (Reachable.init exO none exArgs)).1,
   ((c4_topic_membership exS0 (Reachable.init exO none exArgs)).2.2 oLowStay "w").1,
   ((c4_topic_membership exS0 (Reachable.init exO none exArgs)).2.2 oLowStay "w").2 rfl⟩

/-- C9 counterexample: the freshly constructed session is reachable and has
both streak counters equal to zero, so "exactly one of streak_good and
streak_poor is non-zero" is false at a reachable state. -/
theorem c9_counterexample :
    Reachable exS0 ∧ exS0.streak_good = 0 ∧ exS0.streak_poor = 0 ∧
    ¬ ((exS0.streak_good ≠ 0 ∧ exS0.streak_poor = 0) ∨
       (exS0.streak_good = 0 ∧ exS0.streak_poor ≠ 0)) :=
  ⟨Reachable.init exO none exArgs, rfl, rfl, by decide⟩

/-- C9 (amended): at every reachable state at most one of the two streak
counters is non-zero (the other is zero). -/
theorem c9_at_most_one_streak (s : EngineState) (hs : Reachable s) :
    s.streak_good = 0 ∨ s.streak_poor = 0 :=
  (engine_inv_of_reachable hs).2.2.2.1

/-- C9 witness: the amended invariant evaluated after two strong-answer
turns. -/
theorem c9_at_most_one_streak_witness :
    c1s2.streak_good = 0 ∨ c1s2.streak_poor = 0 :=
  c9_at_most_one_streak c1s2
    (Reachable.next oGoodStay "ответ2"
      (Reachable.next oGoodStay "ответ1" (Reachable.init exO none exArgs)))

/-- C10: every turn appends exactly one user message followed by exactly one
assistant message to the history and exactly one record to the turn log, whose
turn_id is one greater than the number of previously logged turns; the
previously logged prefix is untouched. -/
theorem c10_append_only_log (o : StepOracles) (s : EngineState) (u : String)
    (hs : Reachable s) :
    (step o s u).state.history =
      s.history ++ [Msg.mk Role.user u, Msg.mk Role.assistant (step o s u).visible] ∧
    (step o s u).state.turns.dropLast = s.turns ∧
    (step o s u).state.turns.length = s.turns.length + 1 ∧
    ((step o s u).state.turns.getLast?).map TurnLog.turn_id = some (s.turns.length + 1) ∧
    ((step o s u).state.turns.getLast?).map TurnLog.user_message = some u := by
  have hid := (engine_inv_of_reachable hs).2.2.2.2
  obtain ⟨tl, h1, h2, _, _, _, h6, h7⟩ := step_state_turns o s u
  refine ⟨step_state_history o s u, ?_, ?_, ?_, ?_⟩
  · rw [h1]
    exact List.dropLast_concat
  · rw [h1]
    simp
  · rw [h1]
    simp [h2, hid, h6]
  · rw [h1]
    simp [h6]

/-- C10 witness: the append-only log shape evaluated on the freshly
constructed state with the neutral oracle. -/
theorem c10_append_only_log_witness :
    (step exO exS0 "привет").state.history =
      exS0.history ++ [Msg.mk Role.user "привет",
        Msg.mk Role.assistant (step exO exS0 "привет").visible] ∧
    (step exO exS0 "привет").state.turns.dropLast = exS0.turns ∧
    (step exO exS0 "привет").state.turns.length = exS0.turns.length + 1 ∧
    ((step exO exS0 "привет").state.turns.getLast?).map TurnLog.turn_id =
      some (exS0.turns.length + 1) ∧
    ((step exO exS0 "привет").state.turns.getLast?).map TurnLog.user_message =
      some "привет" :=
  c10_append_only_log exO exS0 "привет" (Reachable.init exO none exArgs)

/-- C1 counterexample: a reachable run (two strong answers promote the
difficulty to medium) followed by a turn whose evaluation scores 30 but says
to move on to an in-plan topic: the committed difficulty stays medium (not
forced to easy) and the only generation call of the turn carries
need_hint = false (not forced on). -/
theorem c1_counterexample :
    Reachable c1s2 ∧
    oLowMove.observe.score_0_100 = 30 ∧
    (step oLowMove c1s2 "ответ3").state.difficulty = Difficulty.medium ∧
    (step oLowMove c1s2 "ответ3").genCalls.map QGenCall.need_hint = [false] :=
  ⟨Reachable.next oGoodStay "ответ2"
      (Reachable.next oGoodStay "ответ1" (Reachable.init exO none exArgs)),
   rfl, by decide, by decide⟩

/-- C1 (amended): the score ≤ 45 override applies only on turns where the
evaluation says not to move on; there, regardless of streak state, the
committed difficulty is forced to easy and the need-hint flag passed to every
question-generation call of the turn is forced to true. -/
theorem c1_override_on_stay (o : StepOracles) (s : EngineState) (u : String)
    (h1 : o.observe.should_move_on = false) (h2 : o.observe.score_0_100 ≤ 45) :
    (step o s u).state.difficulty = Difficulty.easy ∧
    ∀ c ∈ (step o s u).genCalls, c.need_hint = true := by
  have hplan : (stepDecision o s u).plan.need_hint = true := by
    simp [stepDecision, decideTopic, h1, h2]
  have hdiff : (stepDecision o s u).state.difficulty = Difficulty.easy := by
    simp [stepDecision, decideTopic, h1, h2]
  refine ⟨?_, ?_⟩
  · rw [step_state_difficulty]
    exact hdiff
  · intro c hc
    rw [step_genCalls_eq] at hc
    simp only [stepGen] at hc
    rw [(generate_question_calls_mem _ _ _ _ _ _ c hc).2.1, hplan]

/-- C1 witness: with an observer that scores 30 and stays, the turn from the
fresh state commits difficulty easy and passes need_hint = true to the single
generation call. -/
theorem c1_override_on_stay_witness :
    oLowStay.observe.should_move_on = false ∧
    oLowStay.observe.score_0_100 ≤ 45 ∧
    (step oLowStay exS0 "w").state.difficulty = Difficulty.easy ∧
    ((step oLowStay exS0 "w").genCalls.all (fun c => c.need_hint)) = true :=
  ⟨rfl, by decide,
   (c1_override_on_stay oLowStay exS0 "w" rfl (by decide)).1,
   by decide⟩

/-- C5 counterexample: two reachable runs refuting the claim in two ways.
First, after eight drafted questions a guard-rejected turn's retry generation
call receives an avoid list of 9 entries — more than the claimed bound of 8.
Second, when the generator repeats a draft text, the avoid list passed to
generation contains duplicate entries, so it cannot equal any list of
distinct drafted questions. -/
theorem c5_counterexample :
    Reachable c5t7 ∧
    c5t7.asked_questions_text.length = 8 ∧
    ((step oMis c5t7 "a").genCalls.map (fun c => c.avoid_questions.length)) = [8, 9] ∧
    Reachable c5d2 ∧
    ((step (oAsk "q2") c5d2 "a").genCalls.head?.map QGenCall.avoid_questions) =
      some ["вопрос", "q1", "q1"] ∧
    ¬ (["вопрос", "q1", "q1"] : List String).Nodup :=
  ⟨Reachable.next (oAsk "q7") "a"
      (Reachable.next (oAsk "q6") "a"
        (Reachable.next (oAsk "q5") "a"
          (Reachable.next (oAsk "q4") "a"
            (Reachable.next (oAsk "q3") "a"
              (Reachable.next (oAsk "q2") "a"
                (Reachable.next (oAsk "q1") "a" (Reachable.init exO none exArgs))))))),
   by decide, by decide,
   Reachable.next (oAsk "q1") "a"
     (Reachable.next (oAsk "q1") "a" (Reachable.init exO none exArgs)),
   by decide, by decide⟩

/-- C5 (amended): the avoid list passed to the initial generation call of each
turn is exactly the suffix of the most recent (up to 8) previously drafted
questions, in order, duplicates included; each consistency-guard retry
receives that same list with exactly the just-rejected draft appended — the
generator response to the immediately preceding call, which the consistency
guard rejected — hence at most 9 entries overall. -/
theorem c5_avoid_list_shape (o : StepOracles) (s : EngineState) (u : String) :
    ((step o s u).genCalls.head?.map QGenCall.avoid_questions =
      some (pyLastN 8 s.asked_questions_text)) ∧
    (pyLastN 8 s.asked_questions_text).length ≤ 8 ∧
    (s.asked_questions_text.take (s.asked_questions_text.length - 8) ++
      pyLastN 8 s.asked_questions_text = s.asked_questions_text) ∧
    List.Chain' (fun c c' =>
      topic_guard_ok (o.guardNotes (stepDecision o s u).planned_topic
        (o.qgen c).question_text) = false ∧
      c'.avoid_questions =
        pyLastN 8 s.asked_questions_text ++ [(o.qgen c).question_text])
      (step o s u).genCalls ∧
    (∀ c ∈ (step o s u).genCalls, c.avoid_questions.length ≤ 9) := by
  refine ⟨?_, pyLastN_length_le 8 _, pyLastN_suffix 8 _, ?_, ?_⟩
  · rw [step_genCalls_eq]
    simp only [stepGen]
    rw [generate_question_head]
    simp
  · rw [step_genCalls_eq]
    simp only [stepGen]
    have h := generate_question_chain o (stepCommitted o s u)
      (stepDecision o s u).planned_topic (stepCommitted o s u).difficulty
      (stepDecision o s u).plan.intent (stepDecision o s u).plan.need_hint
    simpa using h
  · intro c hc
    rw [step_genCalls_eq] at hc
    simp only [stepGen] at hc
    rcases (generate_question_calls_mem _ _ _ _ _ _ c hc).2.2 with h | ⟨q, h⟩
    · rw [h]
      exact Nat.le_trans (pyLastN_length_le 8 _) (by omega)
    · rw [h]
      simp only [List.length_append, List.length_cons, List.length_nil]
      have := pyLastN_length_le 8 (stepCommitted o s u).asked_questions_text
      omega

/-- C5 witness: the avoid-list shape — including the chained
rejected-draft-appended relation between consecutive generation calls —
evaluated on the concrete mismatch-guard turn after eight drafted
questions. -/
theorem c5_avoid_list_shape_witness :
    ((step oMis c5t7 "a").genCalls.head?.map QGenCall.avoid_questions =
      some (pyLastN 8 c5t7.asked_questions_text)) ∧
    (pyLastN 8 c5t7.asked_questions_text).length ≤ 8 ∧
    List.Chain' (fun c c' =>
      topic_guard_ok (oMis.guardNotes (stepDecision oMis c5t7 "a").planned_topic
        (oMis.qgen c).question_text) = false ∧
      c'.avoid_questions =
        pyLastN 8 c5t7.asked_questions_text ++ [(oMis.qgen c).question_text])
      (step oMis c5t7 "a").genCalls ∧
    ((step oMis c5t7 "a").genCalls.all
      (fun c => decide (c.avoid_questions.length ≤ 9))) = true :=
  ⟨(c5_avoid_list_shape oMis c5t7 "a").1,
   (c5_avoid_list_shape oMis c5t7 "a").2.1,
   (c5_avoid_list_shape oMis c5t7 "a").2.2.2.1,
   by decide⟩

/-- C6: with max_regen_attempts = 1 and a guard that reports mismatch for
every draft, the generator is invoked exactly 2 times for the turn, the draft
accepted (and appended to the asked-question list) is the response to the
last call, the turn still returns the rendered visible message, and for any
configuration the number of generator invocations per turn is bounded by
max_regen_attempts + 1. -/
theorem c6_bounded_regen (o : StepOracles) (s : EngineState) (u : String)
    (hmax : s.max_regen_attempts = 1)
    (hg : ∀ t q, topic_guard_ok (o.guardNotes t q) = false) :
    (step o s u).genCalls.length = 2 ∧
    ((step o s u).genCalls.getLast?).map (fun c => (o.qgen c).question_text) =
      some (stepGen o s u).1.question_text ∧
    (step o s u).state.asked_questions_text =
      s.asked_questions_text ++ [(stepGen o s u).1.question_text] ∧
    (step o s u).visible = o.render ∧
    ∀ (o' : StepOracles) (s' : EngineState) (u' : String),
      (step o' s' u').genCalls.length ≤ s'.max_regen_attempts + 1 := by
  obtain ⟨c1, h1, h2⟩ := generate_question_mismatch o (stepCommitted o s u)
    (stepDecision o s u).planned_topic (stepCommitted o s u).difficulty
    (stepDecision o s u).plan.intent (stepDecision o s u).plan.need_hint
    (by simpa using hmax) (fun q => hg _ q)
  refine ⟨?_, ?_, step_state_asked o s u, step_visible_eq o s u, ?_⟩
  · rw [step_genCalls_eq]
    simp only [stepGen]
    rw [h1]
    rfl
  · rw [step_genCalls_eq]
    simp only [stepGen]
    rw [h1, h2]
    simp
  · intro o' s' u'
    rw [step_genCalls_eq]
    simp only [stepGen]
    refine Nat.le_trans (generate_question_length_le _ _ _ _ _ _) ?_
    simp

/-- C6 witness: the bounded-retry behaviour evaluated on the fresh state with
the always-mismatch guard oracle. -/
theorem c6_bounded_regen_witness :
    exS0.max_regen_attempts = 1 ∧
    topic_guard_ok (oMis.guardNotes "t" "q") = false ∧
    (step oMis exS0 "w").genCalls.length = 2 ∧
    (step oMis exS0 "w").visible = oMis.render :=
  ⟨rfl, by decide,
   (c6_bounded_regen oMis exS0 "w" rfl
     (fun t q => by
       show topic_guard_ok "mismatch" = false
       decide)).1,
   (c6_bounded_regen oMis exS0 "w" rfl
     (fun t q => by
       show topic_guard_ok "mismatch" = false
       decide)).2.2.2.1⟩

/-- C7: on a reachable state with a duplicate-free plan (the spec's data-model
invariant), a turn whose evaluation says to move on to a topic outside the
plan advances the cursor by exactly one position clamped at the last topic,
commits the plan topic at that cursor, and does not adopt the out-of-plan
topic. -/
theorem c7_fallback_advance (o : StepOracles) (s : EngineState) (u : String)
    (hs : Reachable s) (hnd : s.topic_plan.Nodup)
    (hmv : o.observe.should_move_on = true)
    (hnin : o.observe.next_topic ∉ s.topic_plan) :
    (step o s u).state.topic_index = min (s.topic_index + 1) (s.topic_plan.length - 1) ∧
    (step o s u).state.current_topic =
      s.topic_plan.getD ((step o s u).state.topic_index) "" ∧
    (step o s u).state.current_topic ≠ o.observe.next_topic := by
  obtain ⟨hne, hidx, hmem, _, _⟩ := engine_inv_of_reachable hs
  have hplanned : (stepDecision o s u).planned_topic =
      (advance_topic (stepStreaksDone o s u)).1 := by
    simp [stepDecision, decideTopic, hmv, hnin]
  have hstate : (stepDecision o s u).state.topic_index =
      s.topic_plan.indexOf (advance_topic (stepStreaksDone o s u)).1 := by
    simp [stepDecision, decideTopic, hmv, hnin]
  have hj : (advance_topic (stepStreaksDone o s u)).2.topic_index =
      min (s.topic_index + 1) (s.topic_plan.length - 1) := by
    rw [advance_topic_index_eq]
    simp only [stepStreaksDone_topic_index, stepStreaksDone_topic_plan]
    split <;> omega
  have hjlt : min (s.topic_index + 1) (s.topic_plan.length - 1) < s.topic_plan.length := by
    omega
  have hfst : (advance_topic (stepStreaksDone o s u)).1 =
      s.topic_plan.getD (min (s.topic_index + 1) (s.topic_plan.length - 1)) "" := by
    rw [advance_topic_fst_eq, hj]
    simp
  have hidxof : s.topic_plan.indexOf
      (s.topic_plan.getD (min (s.topic_index + 1) (s.topic_plan.length - 1)) "") =
      min (s.topic_index + 1) (s.topic_plan.length - 1) := by
    rw [getD_eq_getElem_str _ _ hjlt]
    exact List.indexOf_getElem hnd _ hjlt
  have hindex : (step o s u).state.topic_index =
      min (s.topic_index + 1) (s.topic_plan.length - 1) := by
    rw [step_state_topic_index, hstate, hfst]
    exact hidxof
  refine ⟨hindex, ?_, ?_⟩
  · rw [step_state_current_topic, hplanned, hfst, hindex]
  · rw [step_state_current_topic, hplanned, hfst]
    intro heq
    exact hnin (heq ▸ getD_mem_of_lt _ _ hjlt)

/-- C7 witness: from the fresh state (cursor 0, default 3-topic plan) a
move-on recommendation of the out-of-plan topic "zzz" advances the cursor to
1 and commits the plan topic there. -/
theorem c7_fallback_advance_witness :
    (step oZzz exS0 "w").state.topic_index =
      min (exS0.topic_index + 1) (exS0.topic_plan.length - 1) ∧
    (step oZzz exS0 "w").state.current_topic =
      exS0.topic_plan.getD ((step oZzz exS0 "w").state.topic_index) "" ∧
    (step oZzz exS0 "w").state.current_topic ≠ oZzz.observe.next_topic :=
  c7_fallback_advance oZzz exS0 "w" (Reachable.init exO none exArgs)
    (by decide) rfl (by decide)

/-- C8: on construction, a failed (`none`) or empty plan parse yields the
fixed 3-topic default plan; the seed topic is the first plan entry, the
initial difficulty is easy, the history consists of the intro followed by one
generated warm-up question (both assistant messages, no user message), and
the turn counter is 0. -/
theorem c8_init_defaults (o : StepOracles) (p : Option (List String)) (a : InitArgs) :
    ((p = none ∨ p = some []) → (initEngine o p a).1.topic_plan = default_topics) ∧
    (initEngine o p a).1.topic_plan ≠ [] ∧
    (initEngine o p a).1.current_topic = (initEngine o p a).1.topic_plan.getD 0 "" ∧
    (initEngine o p a).1.difficulty = Difficulty.easy ∧
    (∃ q : String,
      (initEngine o p a).1.history =
        [Msg.mk Role.assistant (build_interviewer_intro a.position a.target_grade a.experience),
         Msg.mk Role.assistant q] ∧
      (initEngine o p a).1.asked_questions_text = [q]) ∧
    (∀ m ∈ (initEngine o p a).1.history, m.role = Role.assistant) ∧
    (initEngine o p a).1.turn_id = 0 := by
  refine ⟨?_, initEngine_topic_plan_ne_nil o p a, initEngine_current_topic o p a,
    initEngine_difficulty o p a, ⟨_, rfl, rfl⟩, ?_, initEngine_turn_id o p a⟩
  · rintro (rfl | rfl) <;> rfl
  · intro m hm
    obtain ⟨q, hh, _⟩ : ∃ q : String,
        (initEngine o p a).1.history =
          [Msg.mk Role.assistant (build_interviewer_intro a.position a.target_grade a.experience),
           Msg.mk Role.assistant q] ∧
        (initEngine o p a).1.asked_questions_text = [q] := ⟨_, rfl, rfl⟩
    rw [hh] at hm
    simp only [List.mem_cons, List.mem_singleton, List.not_mem_nil, or_false] at hm
    rcases hm with h | h <;> rw [h]

/-- C8 witness: construction with a failed planner parse uses the default
plan, seeds the first topic, starts at difficulty easy, and has turn counter
0. -/
theorem c8_init_defaults_witness :
    (initEngine exO none exArgs).1.topic_plan = default_topics ∧
    (initEngine exO none exArgs).1.current_topic =
      (initEngine exO none exArgs).1.topic_plan.getD 0 "" ∧
    (initEngine exO none exArgs).1.difficulty = Difficulty.easy ∧
    (initEngine exO none exArgs).1.turn_id = 0 :=
  ⟨(c8_init_defaults exO none exArgs).1 (Or.inl rfl),
   (c8_init_defaults exO none exArgs).2.2.1,
   (c8_init_defaults exO none exArgs).2.2.2.1,
   (c8_init_defaults exO none exArgs).2.2.2.2.2.2⟩
